import Mathlib

/-!
Shallow embedding of the dataflow-server blog/content-management backend
(category service, blog post service, like repository) and proofs about it.

The persistent store is modelled as in-memory lists of rows (`DB`).  Each
service/repository function from the Python source is translated to a pure
Lean function; a call that raises becomes an `Except.error`, and functions
that commit state changes return the new `DB` alongside the outcome, since
a commit can happen before a later exception is raised.

Timestamp columns (`created_at` / `updated_at`) and the SEO metadata columns
of `BlogPost` are elided from the row structures because no verified claim
reads them; the full column list of the `blog_posts` table is still recorded
in `blogPostMappedAttrs` because the constructor-argument check depends on it.
-/

deriving instance DecidableEq for Except

namespace DataFlow

/-- Failure outcomes of a service/repository call.  `http` is a raised
`HTTPException(status_code, detail)`; the other constructors are Python
exceptions that escape the service layer (the framework turns them into
HTTP 500 responses): `TypeError` from the SQLAlchemy declarative
constructor, `pydantic.ValidationError` from `model_validate`,
`MultipleResultsFound` from `scalar_one_or_none`, `ValueError` raised by
`CategoryRepository`, and `IntegrityError` from a commit that violates a
table constraint. -/
inductive Err where
  | http (status : Nat) (detail : String)
  | typeError (msg : String)
  | validationError (msg : String)
  | multipleResults
  | valueError (msg : String)
  | integrityError (msg : String)
  deriving Repr, DecidableEq

/-- Extracts the HTTP status code of a raised `HTTPException`, if the
outcome is one. -/
def exceptHttpStatus {α : Type} : Except Err α → Option Nat
  | .error (.http s _) => some s
  | _ => none

/-- Row of the `categories` table (`app/models/db/category_model.py`):
id (PK), name, slug (unique), optional description, optional self-referential
parent_id.  Timestamps elided. -/
structure Category where
  id : Nat
  name : String
  slug : String
  description : Option String := none
  parent_id : Option Nat := none
  deriving Repr, DecidableEq

/-- `CategoryCreate` request schema: name and slug required, description and
parent_id optional (defaulting to null). -/
structure CategoryCreate where
  name : String
  slug : String
  description : Option String := none
  parent_id : Option Nat := none
  deriving Repr, DecidableEq

/-- `CategoryUpdate` request schema.  Every field is optional; pydantic
distinguishes a field that was not supplied from one supplied as null, and
`model_dump(exclude_unset=True)` keeps only supplied fields.  The outer
`Option` is "was the field supplied", the inner one is the (nullable) value. -/
structure CategoryUpdate where
  name : Option (Option String) := none
  slug : Option (Option String) := none
  description : Option (Option String) := none
  parent_id : Option (Option Nat) := none
  deriving Repr, DecidableEq

/-- Row of the `blog_posts` table (`app/models/db/blog_post_model.py`).
Note the content columns are `content_markdown` and `content_html`; there is
no `content` column.  SEO/social metadata columns and timestamps that no
claim reads are elided (see `blogPostMappedAttrs` for the full column list). -/
structure BlogPost where
  id : Nat
  author_id : Nat
  category_id : Option Nat := none
  topic_cluster_id : Option Nat := none
  featured_image_id : Option Nat := none
  og_image_id : Option Nat := none
  title : String
  slug : String
  excerpt : Option String := none
  content_markdown : String := ""
  content_html : String := ""
  meta_description : Option String := none
  status : String := "draft"
  published_at : Option Nat := none
  view_count : Nat := 0
  like_count : Nat := 0
  comment_count : Nat := 0
  deriving Repr, DecidableEq

/-- `BlogPostCreate` request schema (= `BlogPostBase`): title, slug and
`content` required, the rest optional. -/
structure BlogPostCreate where
  title : String
  slug : String
  content : String
  excerpt : Option String := none
  category_id : Option Nat := none
  topic_cluster_id : Option Nat := none
  featured_image_id : Option Nat := none
  og_image_id : Option Nat := none
  deriving Repr, DecidableEq

/-- `BlogPostUpdate` request schema; same supplied/null encoding as
`CategoryUpdate`.  It has no `status` field. -/
structure BlogPostUpdate where
  title : Option (Option String) := none
  slug : Option (Option String) := none
  content : Option (Option String) := none
  excerpt : Option (Option String) := none
  category_id : Option (Option Nat) := none
  topic_cluster_id : Option (Option Nat) := none
  meta_description : Option (Option String) := none
  deriving Repr, DecidableEq

/-- `BlogPostOut` response schema (timestamps elided; length constraints on
the string fields are not modelled since no claim depends on them). -/
structure BlogPostOut where
  id : Nat
  author_id : Nat
  title : String
  slug : String
  content : String
  excerpt : Option String
  category_id : Option Nat
  topic_cluster_id : Option Nat
  featured_image_id : Option Nat
  og_image_id : Option Nat
  status : String
  published_at : Option Nat
  view_count : Nat
  like_count : Nat
  comment_count : Nat
  deriving Repr, DecidableEq

/-- Row of the `likes` table: targets either a post or a comment (nullable
foreign keys) plus the anonymous fingerprint hash. -/
structure Like where
  id : Nat
  post_id : Option Nat := none
  comment_id : Option Nat := none
  fingerprint_hash : String
  deriving Repr, DecidableEq

/-- The persisted store: one list of rows per table the claims touch, plus
the autoincrement counter for `categories.id`. -/
structure DB where
  categories : List Category := []
  posts : List BlogPost := []
  likes : List Like := []
  catNextId : Nat := 1
  deriving Repr, DecidableEq

/-- The empty store. -/
def emptyDB : DB := {}

/-- Python truthiness of an optional integer (`if exclude_id:` /
`if data.parent_id:`): `None` and `0` are falsy. -/
def pyTruthy : Option Nat → Bool
  | none => false
  | some n => n != 0

/-- SQLAlchemy `scalar_one_or_none()`: `None` on zero rows, the row on
exactly one, and raises `MultipleResultsFound` on two or more. -/
def scalarOneOrNone {α : Type} : List α → Except Err (Option α)
  | [] => .ok none
  | [a] => .ok (some a)
  | _ :: _ :: _ => .error .multipleResults

namespace CategoryRepository

/-- `get_by_id`: `select(...).where(Category.id == category_id)` then
`.scalars().first()` — the first matching row or `None`. -/
def get_by_id (category_id : Nat) (db : DB) : Option Category :=
  db.categories.find? (fun c => c.id == category_id)

/-- `slug_exists`: any row with the slug; when `exclude_id` is truthy the
query also filters `Category.id != exclude_id`. -/
def slug_exists (slug : String) (exclude_id : Option Nat) (db : DB) : Bool :=
  db.categories.any (fun c =>
    c.slug == slug && (!(pyTruthy exclude_id) || c.id != exclude_id.getD 0))

/-- `get_children`: all rows whose `parent_id` equals the given id. -/
def get_children (category_id : Nat) (db : DB) : List Category :=
  db.categories.filter (fun c => c.parent_id == some category_id)

/-- `create`: re-checks (truthy) parent existence, raising `ValueError` if
missing; otherwise inserts a new row with the next autoincrement id.  The
storage-level UNIQUE constraint on slug cannot fire here because the service
checked `slug_exists` over the whole table first. -/
def create (data : CategoryCreate) (db : DB) : Except Err (Category × DB) :=
  if pyTruthy data.parent_id && (get_by_id (data.parent_id.getD 0) db).isNone then
    .error (.valueError "Parent category not found")
  else
    let c : Category :=
      { id := db.catNextId, name := data.name, slug := data.slug,
        description := data.description, parent_id := data.parent_id }
    .ok (c, { db with categories := db.categories ++ [c],
                      catNextId := db.catNextId + 1 })

/-- `update`: re-checks parent existence when a non-null `parent_id` that
differs from the current one was supplied (the pydantic attribute collapses
unset and null, hence `Option.join`); then applies exactly the supplied
fields (`model_dump(exclude_unset=True)`), including supplied nulls.  A null
written into the NOT NULL `name`/`slug` columns, or a slug collision the
service-side check skipped (only possible for the empty string, which is
falsy in Python), surfaces as an `IntegrityError` at commit. -/
def update (cat : Category) (data : CategoryUpdate) (db : DB) :
    Except Err (Category × DB) :=
  if (match data.parent_id.join with
      | some pid => (some pid != cat.parent_id) && (get_by_id pid db).isNone
      | none => false) then
    .error (.valueError "Parent category not found")
  else
    let name? : Option String := match data.name with | some v => v | none => some cat.name
    let slug? : Option String := match data.slug with | some v => v | none => some cat.slug
    let desc : Option String := match data.description with | some v => v | none => cat.description
    let par : Option Nat := match data.parent_id with | some v => v | none => cat.parent_id
    match name?, slug? with
    | some n, some s =>
      if s != cat.slug && db.categories.any (fun c => c.id != cat.id && c.slug == s) then
        .error (.integrityError "UNIQUE constraint failed")
      else
        let c2 : Category :=
          { cat with name := n, slug := s, description := desc, parent_id := par }
        .ok (c2, { db with categories :=
                     db.categories.map (fun c => if c.id == cat.id then c2 else c) })
    | _, _ => .error (.integrityError "NOT NULL constraint failed")

/-- `delete`: removes the row with the category's primary key. -/
def delete (cat : Category) (db : DB) : DB :=
  { db with categories := db.categories.filter (fun c => c.id != cat.id) }

end CategoryRepository

namespace CategoryService

/-- Detail message of the delete-blocked-by-children error, parameterized
by the number of direct children. -/
def childrenBlockMsg (n : Nat) : String :=
  s!"Cannot delete category with {n} subcategories. Please move or delete child categories first."

/-- Condition of the slug-conflict branch of `update_category`:
`if data.slug and data.slug != category.slug:` followed by
`slug_exists(data.slug, db, exclude_id=category_id)`. -/
def slugUpdateConflict (data : CategoryUpdate) (cat : Category) (category_id : Nat)
    (db : DB) : Bool :=
  match data.slug.join with
  | some s => s != "" && s != cat.slug && CategoryRepository.slug_exists s (some category_id) db
  | none => false

/-- Condition of the missing-parent branch of `update_category`:
`data.parent_id is not None and data.parent_id != category.parent_id` and
the new parent is absent. -/
def parentUpdateMissing (data : CategoryUpdate) (cat : Category) (db : DB) : Bool :=
  match data.parent_id.join with
  | some pid => (some pid != cat.parent_id) && (CategoryRepository.get_by_id pid db).isNone
  | none => false

/-- `create_category`: 409 on an existing slug, 404 on a truthy missing
parent, otherwise inserts via the repository (any repository exception is
repackaged as a generic 500).  `CategoryOut` has exactly the row's fields,
so `model_validate` is the identity here. -/
def create_category (data : CategoryCreate) (db : DB) : Except Err Category × DB :=
  if CategoryRepository.slug_exists data.slug none db then
    (.error (.http 409 s!"Slug {data.slug} already exists"), db)
  else if pyTruthy data.parent_id &&
          (CategoryRepository.get_by_id (data.parent_id.getD 0) db).isNone then
    (.error (.http 404 s!"Parent category not found"), db)
  else
    match CategoryRepository.create data db with
    | .error _ => (.error (.http 500 "Failed to create category"), db)
    | .ok (c, db2) => (.ok c, db2)

/-- `get_category`: the row by id or a 404. -/
def get_category (category_id : Nat) (db : DB) : Except Err Category :=
  match CategoryRepository.get_by_id category_id db with
  | none => .error (.http 404 s!"Category with ID {category_id} not found")
  | some c => .ok c

/-- `update_category`: 404 if the target is missing; 400 (note: not 409) if
a supplied slug that differs from the current one collides; 404 if a
supplied, changed parent id does not exist; otherwise the repository applies
the supplied fields (exceptions repackaged as 500). -/
def update_category (category_id : Nat) (data : CategoryUpdate) (db : DB) :
    Except Err Category × DB :=
  match CategoryRepository.get_by_id category_id db with
  | none => (.error (.http 404 s!"Category with ID {category_id} not found"), db)
  | some cat =>
    if slugUpdateConflict data cat category_id db then
      (.error (.http 400 "Slug already exists"), db)
    else if parentUpdateMissing data cat db then
      (.error (.http 404 "Parent category not found"), db)
    else
      match CategoryRepository.update cat data db with
      | .error _ => (.error (.http 500 "Failed to update category"), db)
      | .ok (c2, db2) => (.ok c2, db2)

/-- `delete_category`: 404 if missing; 400 if any direct child exists
(nothing is deleted in that case); otherwise removes the single row and
returns the success message. -/
def delete_category (category_id : Nat) (db : DB) : Except Err String × DB :=
  match CategoryRepository.get_by_id category_id db with
  | none => (.error (.http 404 s!"Category with ID {category_id} not found"), db)
  | some cat =>
    let children := CategoryRepository.get_children category_id db
    if children.isEmpty then
      (.ok s!"Category {cat.name} deleted successfully",
       CategoryRepository.delete cat db)
    else
      (.error (.http 400 (childrenBlockMsg children.length)), db)

end CategoryService

/-- Attribute names of the `BlogPost` declarative class: every mapped column
of `app/models/db/blog_post_model.py` plus the relationship attributes.  The
SQLAlchemy declarative constructor accepts exactly these keyword arguments
and raises `TypeError` for any other. -/
def blogPostMappedAttrs : List String :=
  ["id", "author_id", "category_id", "topic_cluster_id", "featured_image_id",
   "og_image_id", "title", "slug", "excerpt", "content_markdown",
   "content_html", "featured_image_alt", "featured_image_caption", "og_title",
   "og_description", "twitter_title", "twitter_description",
   "twitter_card_type", "meta_title", "meta_description", "focus_keyword",
   "content_language", "geo_target_country", "status",
   "reading_time_minutes", "word_count", "table_of_contents_enabled",
   "ai_generated_flag", "content_version", "last_updated_reason",
   "published_at", "scheduled_at", "last_reviewed_at", "view_count",
   "like_count", "comment_count", "share_count", "created_at", "updated_at",
   "author", "category", "topic_cluster", "featured_image", "og_image"]

/-- Keys of the `post_data` dict built by `BlogPostService.create_post`:
`BlogPostCreate.model_dump()` plus the two keys the service adds. -/
def createPostDataKeys : List String :=
  ["title", "slug", "content", "excerpt", "category_id", "topic_cluster_id",
   "featured_image_id", "og_image_id", "author_id", "status"]

namespace BlogPostRepository

/-- `get_by_id`: `select(...).where(BlogPost.id == post_id)` then
`scalar_one_or_none()`. -/
def get_by_id (post_id : Nat) (db : DB) : Except Err (Option BlogPost) :=
  scalarOneOrNone (db.posts.filter (fun p => p.id == post_id))

/-- `get_by_slug`: lookup by the slug column via `scalar_one_or_none()`. -/
def get_by_slug (slug : String) (db : DB) : Except Err (Option BlogPost) :=
  scalarOneOrNone (db.posts.filter (fun p => p.slug == slug))

/-- `slug_exists`: `scalar_one_or_none() is not None` over the slug query,
filtering `BlogPost.id != exclude_id` when `exclude_id` is truthy. -/
def slug_exists (slug : String) (exclude_id : Option Nat) (db : DB) :
    Except Err Bool :=
  (scalarOneOrNone (db.posts.filter (fun p =>
      p.slug == slug && (!(pyTruthy exclude_id) || p.id != exclude_id.getD 0)))).map
    Option.isSome

/-- `create`: `BlogPost(**data)` raises
`TypeError: content is an invalid keyword argument for BlogPost` — the dict
contains the key `content` (from `BlogPostCreate.model_dump()`), and the
model has no such mapped attribute (its columns are `content_markdown` and
`content_html`); see `createPostDataKeys_bad_key`.  The exception fires
before `db.add`, so the store is untouched and no row is ever inserted. -/
def create (_data : BlogPostCreate) (_author_id : Nat) (_db : DB) :
    Except Err (BlogPost × DB) :=
  .error (.typeError "content is an invalid keyword argument for BlogPost")

/-- Effect on a row of `update(post, update_data, db)` when called from
`update_post` with `data.model_dump(exclude_unset=True)`: each supplied
non-`None` value is applied (`if value is not None: setattr(...)`), so a
field that is unset or supplied as null keeps its previous value.  The
supplied `content` value is set by `setattr` as a transient, non-mapped
instance attribute: it is never persisted, so `content_markdown` /
`content_html` (and every column `BlogPostUpdate` lacks) are unchanged. -/
def applyPostUpdate (p : BlogPost) (data : BlogPostUpdate) : BlogPost :=
  { p with
    title := match data.title with | some (some v) => v | _ => p.title
    slug := match data.slug with | some (some v) => v | _ => p.slug
    excerpt := match data.excerpt with | some (some v) => some v | _ => p.excerpt
    category_id := match data.category_id with | some (some v) => some v | _ => p.category_id
    topic_cluster_id := match data.topic_cluster_id with | some (some v) => some v | _ => p.topic_cluster_id
    meta_description := match data.meta_description with | some (some v) => some v | _ => p.meta_description }

/-- `update` called from `update_post`: applies `applyPostUpdate` to the
fetched row and commits.  The UNIQUE constraint on slug can only fire when
the service-side check was skipped (empty-string slug, falsy in Python). -/
def update (post : BlogPost) (data : BlogPostUpdate) (db : DB) :
    Except Err (BlogPost × DB) :=
  let p2 := applyPostUpdate post data
  if p2.slug != post.slug &&
     db.posts.any (fun q => q.id != post.id && q.slug == p2.slug) then
    .error (.integrityError "UNIQUE constraint failed")
  else
    .ok (p2, { db with posts :=
                 db.posts.map (fun q => if q.id == post.id then p2 else q) })

/-- `delete`: calls `db.delete(post)` WITHOUT `await` — but
`AsyncSession.delete` is a coroutine (the category repository correctly
awaits its `db.delete`), so the coroutine is discarded, the row is never
marked for deletion, and the following `commit()` persists nothing.  The
store is unchanged. -/
def delete (_post : BlogPost) (db : DB) : DB := db

end BlogPostRepository

/-- `BlogPostOut.model_validate` on a freshly queried ORM row: pydantic
extracts each schema field with `getattr`; the required field `content` does
not exist on `BlogPost` (the model only has `content_markdown` /
`content_html`), so validation always raises `ValidationError` (an HTTP 500
once it escapes the service). -/
def BlogPostOut.model_validate (_p : BlogPost) : Except Err BlogPostOut :=
  .error (.validationError "content field required")

/-- Builds the `BlogPostOut` value for the one case where `model_validate`
can succeed: the instance carries a transient `content` attribute left by a
non-null `content` in the update payload. -/
def mkBlogPostOut (p : BlogPost) (content : String) : BlogPostOut :=
  { id := p.id, author_id := p.author_id, title := p.title, slug := p.slug,
    content := content, excerpt := p.excerpt, category_id := p.category_id,
    topic_cluster_id := p.topic_cluster_id,
    featured_image_id := p.featured_image_id, og_image_id := p.og_image_id,
    status := p.status, published_at := p.published_at,
    view_count := p.view_count, like_count := p.like_count,
    comment_count := p.comment_count }

namespace BlogPostService

/-- `create_post`: 409 when the slug already exists; otherwise the
repository insert raises before anything is stored (see
`BlogPostRepository.create`). -/
def create_post (data : BlogPostCreate) (author_id : Nat) (db : DB) :
    Except Err BlogPostOut × DB :=
  match BlogPostRepository.slug_exists data.slug none db with
  | .error e => (.error e, db)
  | .ok true => (.error (.http 409 "Post slug already exists"), db)
  | .ok false =>
    match BlogPostRepository.create data author_id db with
    | .error e => (.error e, db)
    | .ok (p, db2) => (BlogPostOut.model_validate p, db2)

/-- `get_post`: 404 when no row has the id; otherwise serializes the row
(which raises, see `BlogPostOut.model_validate`). -/
def get_post (post_id : Nat) (db : DB) : Except Err BlogPostOut :=
  match BlogPostRepository.get_by_id post_id db with
  | .error e => .error e
  | .ok none => .error (.http 404 "Post not found")
  | .ok (some p) => BlogPostOut.model_validate p

/-- `get_post_by_slug`: 404 when no row has the slug or the row is not in
`published` status; otherwise serializes the row (which raises). -/
def get_post_by_slug (slug : String) (db : DB) : Except Err BlogPostOut :=
  match BlogPostRepository.get_by_slug slug db with
  | .error e => .error e
  | .ok none => .error (.http 404 "Post not found")
  | .ok (some p) =>
    if p.status != "published" then .error (.http 404 "Post not found")
    else BlogPostOut.model_validate p

/-- The slug-uniqueness check of `update_post`:
`if data.slug and data.slug != post.slug:` then
`slug_exists(data.slug, db, exclude_id=post_id)`. -/
def slugCheck (data : BlogPostUpdate) (p : BlogPost) (post_id : Nat) (db : DB) :
    Except Err Bool :=
  match data.slug.join with
  | some s =>
    if s != "" && s != p.slug then BlogPostRepository.slug_exists s (some post_id) db
    else .ok false
  | none => .ok false

/-- `update_post`: 404 / 403 / 409 as in the source, then the repository
applies the supplied non-null fields.  The final `model_validate` finds a
`content` attribute only when the payload supplied a non-null `content`
(left as a transient attribute by `setattr`); otherwise it raises. -/
def update_post (post_id : Nat) (data : BlogPostUpdate) (author_id : Nat)
    (db : DB) : Except Err BlogPostOut × DB :=
  match BlogPostRepository.get_by_id post_id db with
  | .error e => (.error e, db)
  | .ok none => (.error (.http 404 "Post not found"), db)
  | .ok (some p) =>
    if p.author_id != author_id then
      (.error (.http 403 "Not authorized to update this post"), db)
    else
      match slugCheck data p post_id db with
      | .error e => (.error e, db)
      | .ok true => (.error (.http 409 "Slug already exists"), db)
      | .ok false =>
        match BlogPostRepository.update p data db with
        | .error e => (.error e, db)
        | .ok (p2, db2) =>
          match data.content.join with
          | some c => (.ok (mkBlogPostOut p2 c), db2)
          | none => (.error (.validationError "content field required"), db2)

/-- `publish_post`: 404 / 403 as in the source; 400 when the status is not
`draft`; otherwise commits `status = "published"` and
`published_at = now`, and only then serializes the row — which raises, so
the transition is persisted but the call still fails. -/
def publish_post (post_id : Nat) (author_id : Nat) (now : Nat) (db : DB) :
    Except Err BlogPostOut × DB :=
  match BlogPostRepository.get_by_id post_id db with
  | .error e => (.error e, db)
  | .ok none => (.error (.http 404 "Post not found"), db)
  | .ok (some p) =>
    if p.author_id != author_id then (.error (.http 403 "Not authorized"), db)
    else if p.status != "draft" then
      (.error (.http 400 "Only draft posts can be published"), db)
    else
      let p2 := { p with status := "published", published_at := some now }
      let db2 := { db with posts :=
                     db.posts.map (fun q => if q.id == p.id then p2 else q) }
      (BlogPostOut.model_validate p2, db2)

/-- `delete_post`: 404 / 403 as in the source; otherwise returns success —
but the repository's un-awaited `db.delete(post)` never removes the row
(see `BlogPostRepository.delete`), so the store is unchanged. -/
def delete_post (post_id : Nat) (author_id : Nat) (db : DB) :
    Except Err Unit × DB :=
  match BlogPostRepository.get_by_id post_id db with
  | .error e => (.error e, db)
  | .ok none => (.error (.http 404 "Post not found"), db)
  | .ok (some p) =>
    if p.author_id != author_id then (.error (.http 403 "Not authorized"), db)
    else (.ok (), BlogPostRepository.delete p db)

end BlogPostService

namespace LikeRepository

/-- Match predicate of the post-like queries: rows with
`post_id == post_id AND fingerprint_hash == fingerprint_hash` (a null
`post_id` never matches). -/
def postLikeMatch (post_id : Nat) (fingerprint_hash : String) (l : Like) : Bool :=
  l.post_id == some post_id && l.fingerprint_hash == fingerprint_hash

/-- Match predicate of the comment-like queries. -/
def commentLikeMatch (comment_id : Nat) (fingerprint_hash : String) (l : Like) : Bool :=
  l.comment_id == some comment_id && l.fingerprint_hash == fingerprint_hash

/-- Shared body of the two unlike operations (their code is identical up to
the match predicate): fetch the matching like via `scalar_one_or_none()`;
a miss is a no-op, and a `MultipleResultsFound` (only possible if duplicate
likes were stored) propagates.  In the matched branch the code calls
`db.delete(like)` WITHOUT `await` — `AsyncSession.delete` is a coroutine,
so it is discarded, nothing is marked deleted, and the `commit()` persists
nothing: the store is unchanged in every branch. -/
def unlikeBy (m : Like → Bool) (db : DB) : Except Err Unit × DB :=
  match scalarOneOrNone (db.likes.filter m) with
  | .error e => (.error e, db)
  | .ok none => (.ok (), db)
  | .ok (some _) => (.ok (), db)

/-- `delete_post_like`. -/
def delete_post_like (post_id : Nat) (fingerprint_hash : String) (db : DB) :
    Except Err Unit × DB :=
  unlikeBy (postLikeMatch post_id fingerprint_hash) db

/-- `delete_comment_like`. -/
def delete_comment_like (comment_id : Nat) (fingerprint_hash : String) (db : DB) :
    Except Err Unit × DB :=
  unlikeBy (commentLikeMatch comment_id fingerprint_hash) db

end LikeRepository

/-- One invocation of a blog post service operation with its arguments. -/
inductive PostOp where
  | create (data : BlogPostCreate) (author_id : Nat)
  | update (post_id : Nat) (data : BlogPostUpdate) (author_id : Nat)
  | publish (post_id : Nat) (author_id : Nat) (now : Nat)
  | delete (post_id : Nat) (author_id : Nat)

/-- The store after running a blog post service operation (the committed
state, whether or not the call also raised). -/
def runPostOp : PostOp → DB → DB
  | .create data a, db => (BlogPostService.create_post data a db).2
  | .update i data a, db => (BlogPostService.update_post i data a db).2
  | .publish i a n, db => (BlogPostService.publish_post i a n db).2
  | .delete i a, db => (BlogPostService.delete_post i a db).2

/-- One service call relates a store to its successor store. -/
def PostStep (db db2 : DB) : Prop := ∃ op : PostOp, db2 = runPostOp op db

/-- Stores reachable from a starting store through any sequence of blog post
service operations. -/
def ReachablePostState (db db2 : DB) : Prop := Relation.ReflTransGen PostStep db db2

/-- Status invariant of the blog post state machine: every stored post is a
draft or published. -/
def postStatusInv (db : DB) : Prop :=
  ∀ p ∈ db.posts, p.status = "draft" ∨ p.status = "published"

instance : DecidablePred postStatusInv := fun db =>
  inferInstanceAs (Decidable (∀ p ∈ db.posts, _ ∨ _))

/-! Concrete stores and payloads used by counterexamples and witnesses. -/

/-- Valid blog post creation payload with a fresh slug. -/
def sampleCreate : BlogPostCreate :=
  { title := "Hello", slug := "fresh-slug", content := "0123456789" }

/-- A stored post occupying the slug of `sampleCreate`. -/
def dupPost : BlogPost :=
  { id := 1, author_id := 1, title := "Old", slug := "fresh-slug" }

/-- Store in which the slug of `sampleCreate` is taken. -/
def dbDupSlug : DB := { posts := [dupPost] }

/-- A draft post by author 7. -/
def draftPost : BlogPost := { id := 1, author_id := 7, title := "D", slug := "x" }

/-- Store with the single draft post. -/
def dbDraft : DB := { posts := [draftPost] }

/-- A published post. -/
def pubPost : BlogPost :=
  { id := 2, author_id := 7, title := "P", slug := "pub",
    status := "published", published_at := some 5 }

/-- Store with one published and one draft post. -/
def dbBoth : DB := { posts := [pubPost, draftPost] }

/-- Top-level category. -/
def catA : Category := { id := 1, name := "Backend", slug := "backend" }

/-- Child category of `catA`. -/
def catB : Category :=
  { id := 2, name := "Python Backend", slug := "python-backend", parent_id := some 1 }

/-- Store with a parent and a child category. -/
def dbCats : DB := { categories := [catA, catB], catNextId := 3 }

/-- Category update payload supplying the slug of `catB`. -/
def slugClashUpdate : CategoryUpdate := { slug := some (some "python-backend") }

/-- Category update payload supplying a nonexistent parent. -/
def badParentUpdate : CategoryUpdate := { parent_id := some (some 42) }

/-- Category creation payload with a fresh slug and no optional fields. -/
def sampleCatCreate : CategoryCreate := { name := "Frontend", slug := "frontend" }

/-- A like on post 1. -/
def like1 : Like := { id := 1, post_id := some 1, fingerprint_hash := "fp" }

/-- A like on comment 4. -/
def like2 : Like := { id := 2, comment_id := some 4, fingerprint_hash := "fp" }

/-- Store with one post like and one comment like. -/
def dbLikes : DB := { likes := [like1, like2] }

/-- Blog post update payload supplying every field as an explicit null. -/
def allNullUpdate : BlogPostUpdate :=
  { title := some none, slug := some none, content := some none,
    excerpt := some none, category_id := some none,
    topic_cluster_id := some none, meta_description := some none }

/-- The category `create_category sampleCatCreate dbCats` inserts. -/
def catOut3 : Category := { id := 3, name := "Frontend", slug := "frontend" }

/-- The store after that creation. -/
def dbCatsAfterCreate : DB := { categories := [catA, catB, catOut3], catNextId := 4 }

/-! Helper lemmas. -/

/-- The `post_data` dict of `create_post` contains the key `content`, which
is not among the attributes accepted by the `BlogPost` constructor — the
fact behind the `TypeError` in `BlogPostRepository.create`. -/
theorem createPostDataKeys_bad_key :
    createPostDataKeys.find? (fun k => !(blogPostMappedAttrs.contains k)) = some "content" := by
  decide

theorem scalarOneOrNone_ok_some_mem {α : Type} {l : List α} {a : α}
    (h : scalarOneOrNone l = .ok (some a)) : a ∈ l := by
  match l with
  | [] => simp [scalarOneOrNone] at h
  | [b] =>
    simp only [scalarOneOrNone, Except.ok.injEq, Option.some.injEq] at h
    simp [h]
  | b :: c :: rest => simp [scalarOneOrNone] at h

theorem find?_append_right {α : Type} (p : α → Bool) (l1 l2 : List α)
    (h : ∀ a ∈ l1, p a = false) : (l1 ++ l2).find? p = l2.find? p := by
  induction l1 with
  | nil => rfl
  | cons a t ih =>
    rw [List.cons_append, List.find?_cons_of_neg]
    · exact ih (fun x hx => h x (List.mem_cons_of_mem a hx))
    · simp [h a (List.mem_cons_self a t)]

theorem unlikeBy_state (m : Like → Bool) (db : DB) :
    (LikeRepository.unlikeBy m db).2 = db := by
  cases h : scalarOneOrNone (db.likes.filter m) with
  | error e => simp [LikeRepository.unlikeBy, h]
  | ok o => cases o <;> simp [LikeRepository.unlikeBy, h]

/-! Claim theorems and witnesses. -/

/-- C2.  Creating a blog post with a taken slug fails with 409 Conflict and
stores nothing; but with a fresh slug the call does not create a draft —
`BlogPost(**post_data)` raises `TypeError` because the dict key `content`
(from `BlogPostCreate`) is not a column of `BlogPost`, so every create with
a fresh slug fails with an internal error and the store stays unchanged,
contradicting the repository's own `test_create_blog_post`. -/
theorem c2_create_post_type_error :
    BlogPostService.create_post sampleCreate 1 emptyDB =
      (.error (.typeError "content is an invalid keyword argument for BlogPost"), emptyDB) ∧
    BlogPostService.create_post sampleCreate 1 dbDupSlug =
      (.error (.http 409 "Post slug already exists"), dbDupSlug) := by
  decide

/-- C3.  Publishing a draft by its author commits `status = "published"`
and a non-null `published_at`, but the call itself then fails with a
`ValidationError` (HTTP 500) while serializing the response, and a
subsequent fetch of the post fails the same way — the success and
observability parts of the claim never hold, contradicting
`test_publish_post`.  The failure cases do hold: 404 on a missing id, 403
on a foreign author, and 400 whenever the post is not a draft (so
publishing an already-published post always fails). -/
theorem c3_publish_commits_but_raises :
    (BlogPostService.publish_post 1 7 99 dbDraft).1 =
      .error (.validationError "content field required") ∧
    (BlogPostService.publish_post 1 7 99 dbDraft).2.posts =
      [{ draftPost with status := "published", published_at := some 99 }] ∧
    BlogPostService.get_post 1 (BlogPostService.publish_post 1 7 99 dbDraft).2 =
      .error (.validationError "content field required") ∧
    (BlogPostService.publish_post 2 7 99 dbDraft).1 = .error (.http 404 "Post not found") ∧
    (BlogPostService.publish_post 1 8 99 dbDraft).1 = .error (.http 403 "Not authorized") ∧
    (BlogPostService.publish_post 1 7 100 (BlogPostService.publish_post 1 7 99 dbDraft).2).1 =
      .error (.http 400 "Only draft posts can be published") := by
  decide

/-- C7.  Fetch by slug returns 404 when no post has the slug and when the
post with the slug is not published; but when a published post has the
slug the call does not return it — serialization raises `ValidationError`
(HTTP 500) because `BlogPost` has no `content` attribute. -/
theorem c7_get_by_slug_published_raises :
    BlogPostService.get_post_by_slug "pub" dbBoth =
      .error (.validationError "content field required") ∧
    BlogPostService.get_post_by_slug "x" dbBoth = .error (.http 404 "Post not found") ∧
    BlogPostService.get_post_by_slug "nope" dbBoth = .error (.http 404 "Post not found") := by
  decide

/-- C5 counterexample.  Updating category 1 with the slug of category 2
raises HTTP 400 Bad Request, not 409 Conflict as the claim states (the 409
is only used by category creation). -/
theorem c5_counterexample_status_400 :
    exceptHttpStatus (CategoryService.update_category 1 slugClashUpdate dbCats).1 = some 400 ∧
    (400 : Nat) ≠ 409 := by
  decide

/-- C8.  Unlike never removes anything: `db.delete(like)` in
`delete_post_like` / `delete_comment_like` is not awaited
(`AsyncSession.delete` is a coroutine), so the matched like stays stored
and both operations leave the store unchanged on every input — a total
no-op (hence trivially idempotent), contradicting the claim's "removes the
matching like if one exists" and the functions' own docstrings.
Concretely, `dbLikes` holds a matching post like and a matching comment
like, both calls report success, and the store is untouched. -/
theorem c8_unlike_never_removes :
    (∀ (db : DB) (post_id : Nat) (fp : String),
      (LikeRepository.delete_post_like post_id fp db).2 = db) ∧
    (∀ (db : DB) (comment_id : Nat) (fp : String),
      (LikeRepository.delete_comment_like comment_id fp db).2 = db) ∧
    LikeRepository.delete_post_like 1 "fp" dbLikes = (.ok (), dbLikes) ∧
    like1 ∈ dbLikes.likes ∧ LikeRepository.postLikeMatch 1 "fp" like1 = true ∧
    LikeRepository.delete_comment_like 4 "fp" dbLikes = (.ok (), dbLikes) ∧
    like2 ∈ dbLikes.likes ∧ LikeRepository.commentLikeMatch 4 "fp" like2 = true :=
  ⟨fun db post_id fp => unlikeBy_state (LikeRepository.postLikeMatch post_id fp) db,
   fun db comment_id fp => unlikeBy_state (LikeRepository.commentLikeMatch comment_id fp) db,
   by decide, by decide, by decide, by decide, by decide, by decide⟩

/-- C1.  `delete_category`: a missing id fails with 404 and an unchanged
store; a category with at least one direct child fails with the 400
precondition error and the store — the category and all its children —
is unchanged; a category without children is deleted, and the deletion
removes exactly that row (no cascade: every other category, in particular
every child of anything, survives). -/
theorem c1_delete_category_spec :
    ∀ (db : DB) (category_id : Nat),
      (CategoryRepository.get_by_id category_id db = none →
        CategoryService.delete_category category_id db =
          (.error (.http 404 s!"Category with ID {category_id} not found"), db)) ∧
      (∀ cat, CategoryRepository.get_by_id category_id db = some cat →
        CategoryRepository.get_children category_id db ≠ [] →
          (∃ d, (CategoryService.delete_category category_id db).1 = .error (.http 400 d)) ∧
          (CategoryService.delete_category category_id db).2 = db) ∧
      (∀ cat, CategoryRepository.get_by_id category_id db = some cat →
        CategoryRepository.get_children category_id db = [] →
          (CategoryService.delete_category category_id db).1 =
            .ok s!"Category {cat.name} deleted successfully" ∧
          (CategoryService.delete_category category_id db).2.categories =
            db.categories.filter (fun c => c.id != category_id)) := by
  intro db category_id
  refine ⟨fun h => ?_, fun cat hc hch => ?_, fun cat hc hch => ?_⟩
  · simp [CategoryService.delete_category, h]
  · cases hl : CategoryRepository.get_children category_id db with
    | nil => exact absurd hl hch
    | cons a t =>
      constructor
      · exact ⟨CategoryService.childrenBlockMsg (t.length + 1),
          by simp [CategoryService.delete_category, hc, hl]⟩
      · simp [CategoryService.delete_category, hc, hl]
  · have hid : cat.id = category_id := by
      have := List.find?_some hc
      simpa using this
    constructor
    · simp [CategoryService.delete_category, hc, hch]
    · simp [CategoryService.delete_category, hc, hch, CategoryRepository.delete, hid]

/-- Witness for C1: in `dbCats` the parent (id 1) cannot be deleted, the
childless child (id 2) can, and id 9 is absent. -/
theorem c1_delete_category_witness :
    CategoryService.delete_category 9 dbCats =
      (.error (.http 404 "Category with ID 9 not found"), dbCats) ∧
    ((∃ d, (CategoryService.delete_category 1 dbCats).1 = .error (.http 400 d)) ∧
      (CategoryService.delete_category 1 dbCats).2 = dbCats) ∧
    ((CategoryService.delete_category 2 dbCats).1 =
        .ok "Category Python Backend deleted successfully" ∧
      (CategoryService.delete_category 2 dbCats).2.categories =
        dbCats.categories.filter (fun c => c.id != 2)) :=
  ⟨(c1_delete_category_spec dbCats 9).1 (by decide),
   (c1_delete_category_spec dbCats 1).2.1 catA (by decide) (by decide),
   (c1_delete_category_spec dbCats 2).2.2 catB (by decide) (by decide)⟩

/-- C5 (amended).  `update_category` fails with 404 when the target id is
missing; when a supplied non-empty slug differs from the current one and
some other category has it, it fails with HTTP 400 Bad Request — not 409
Conflict as the claim stated — leaving the store unchanged; and when (with
the slug check passing) a supplied non-null `parent_id` differs from the
current one and no category has that id, it fails with 404. -/
theorem c5_update_category_errors :
    ∀ (db : DB) (category_id : Nat) (data : CategoryUpdate),
      (CategoryRepository.get_by_id category_id db = none →
        CategoryService.update_category category_id data db =
          (.error (.http 404 s!"Category with ID {category_id} not found"), db)) ∧
      (∀ cat s, CategoryRepository.get_by_id category_id db = some cat →
        data.slug.join = some s → s ≠ "" → s ≠ cat.slug →
        CategoryRepository.slug_exists s (some category_id) db = true →
          CategoryService.update_category category_id data db =
            (.error (.http 400 "Slug already exists"), db)) ∧
      (∀ cat pid, CategoryRepository.get_by_id category_id db = some cat →
        CategoryService.slugUpdateConflict data cat category_id db = false →
        data.parent_id.join = some pid → some pid ≠ cat.parent_id →
        CategoryRepository.get_by_id pid db = none →
          CategoryService.update_category category_id data db =
            (.error (.http 404 "Parent category not found"), db)) := by
  intro db category_id data
  refine ⟨fun h => ?_, fun cat s hc hj hne hns hex => ?_, fun cat pid hc hcf hj hnp hmiss => ?_⟩
  · simp [CategoryService.update_category, h]
  · have hconf : CategoryService.slugUpdateConflict data cat category_id db = true := by
      unfold CategoryService.slugUpdateConflict
      rw [hj]
      simp [bne_iff_ne, hne, hns, hex]
    simp [CategoryService.update_category, hc, hconf]
  · have hpm : CategoryService.parentUpdateMissing data cat db = true := by
      unfold CategoryService.parentUpdateMissing
      rw [hj]
      simp [bne_iff_ne, hnp, hmiss]
    simp [CategoryService.update_category, hc, hcf, hpm]

/-- Witness for C5 on `dbCats`: id 9 is absent; giving category 1 the slug
of category 2 yields the 400; giving category 1 the nonexistent parent 42
yields the parent 404. -/
theorem c5_update_category_errors_witness :
    CategoryService.update_category 9 slugClashUpdate dbCats =
      (.error (.http 404 "Category with ID 9 not found"), dbCats) ∧
    CategoryService.update_category 1 slugClashUpdate dbCats =
      (.error (.http 400 "Slug already exists"), dbCats) ∧
    CategoryService.update_category 1 badParentUpdate dbCats =
      (.error (.http 404 "Parent category not found"), dbCats) :=
  ⟨(c5_update_category_errors dbCats 9 slugClashUpdate).1 (by decide),
   (c5_update_category_errors dbCats 1 slugClashUpdate).2.1 catA "python-backend"
     (by decide) (by decide) (by decide) (by decide) (by decide),
   (c5_update_category_errors dbCats 1 badParentUpdate).2.2 catA 42
     (by decide) (by decide) (by decide) (by decide) (by decide)⟩

theorem delete_post_state (db : DB) (post_id author_id : Nat) :
    (BlogPostService.delete_post post_id author_id db).2 = db := by
  cases hg : BlogPostRepository.get_by_id post_id db with
  | error e => simp [BlogPostService.delete_post, hg]
  | ok o =>
    cases o with
    | none => simp [BlogPostService.delete_post, hg]
    | some p =>
      cases hauth : p.author_id != author_id <;>
        simp [BlogPostService.delete_post, hg, hauth, BlogPostRepository.delete]

/-- C6.  `delete_post` never removes anything: the repository's
`db.delete(post)` is not awaited (`AsyncSession.delete` is a coroutine; the
category repository awaits its own `db.delete`), so the coroutine is
discarded and the commit persists nothing — the store is unchanged on every
input.  Concretely, deleting the draft of `dbDraft` by its author reports
success yet the post is still stored, and the subsequent `get_post` does
not fail with 404 (the claim's hard delete and subsequent-404 never
happen). -/
theorem c6_delete_post_never_removes :
    (∀ (db : DB) (post_id author_id : Nat),
      (BlogPostService.delete_post post_id author_id db).2 = db) ∧
    BlogPostService.delete_post 1 7 dbDraft = (.ok (), dbDraft) ∧
    draftPost ∈ dbDraft.posts ∧
    BlogPostService.get_post 1 dbDraft ≠ .error (.http 404 "Post not found") :=
  ⟨delete_post_state, by decide, by decide, by decide⟩

/-- C9.  Round-trip for categories: any successful `create_category` stores
exactly the submitted field values (absent optional fields round-tripping
as null), and a subsequent `get_category` of the returned id yields the
identical record.  For blog posts no round-trip is possible: creation with
a fresh slug never succeeds — `BlogPost(**post_data)` raises `TypeError`
over the `content` key, contradicting the repository's own tests. -/
theorem c9_create_get_round_trip :
    (∀ (db : DB) (data : CategoryCreate) (out : Category) (db2 : DB),
      (∀ c ∈ db.categories, c.id ≠ db.catNextId) →
      CategoryService.create_category data db = (.ok out, db2) →
        out.name = data.name ∧ out.slug = data.slug ∧
        out.description = data.description ∧ out.parent_id = data.parent_id ∧
        CategoryService.get_category out.id db2 = .ok out) ∧
    (BlogPostService.create_post sampleCreate 2 emptyDB).1 =
      .error (.typeError "content is an invalid keyword argument for BlogPost") := by
  refine ⟨?_, by decide⟩
  intro db data out db2 hfresh h
  simp only [CategoryService.create_category] at h
  cases hse : CategoryRepository.slug_exists data.slug none db with
  | true => simp [hse] at h
  | false =>
    rw [if_neg (by simp [hse])] at h
    cases hpt : pyTruthy data.parent_id &&
        (CategoryRepository.get_by_id (data.parent_id.getD 0) db).isNone with
    | true => simp [hpt] at h
    | false =>
      rw [if_neg (by simp [hpt])] at h
      simp only [CategoryRepository.create, hpt, Bool.false_eq_true, if_false,
        Prod.mk.injEq, Except.ok.injEq] at h
      obtain ⟨hout, hdb2⟩ := h
      subst hout
      refine ⟨rfl, rfl, rfl, rfl, ?_⟩
      have hfind : CategoryRepository.get_by_id db.catNextId db2 =
          some { id := db.catNextId, name := data.name, slug := data.slug, description := data.description, parent_id := data.parent_id } := by
        rw [← hdb2]
        simp only [CategoryRepository.get_by_id]
        rw [find?_append_right]
        · simp [List.find?]
        · intro a ha
          simp [hfresh a ha]
      simp [CategoryService.get_category, hfind]

/-- Witness for C9: creating `sampleCatCreate` in `dbCats` stores `catOut3`
and fetching id 3 returns it unchanged. -/
theorem c9_create_get_round_trip_witness :
    catOut3.name = sampleCatCreate.name ∧ catOut3.slug = sampleCatCreate.slug ∧
    catOut3.description = sampleCatCreate.description ∧
    catOut3.parent_id = sampleCatCreate.parent_id ∧
    CategoryService.get_category catOut3.id dbCatsAfterCreate = .ok catOut3 :=
  c9_create_get_round_trip.1 dbCats sampleCatCreate catOut3 dbCatsAfterCreate
    (by decide) (by decide)

theorem get_by_id_ok_some {db : DB} {post_id : Nat} {p : BlogPost}
    (hg : BlogPostRepository.get_by_id post_id db = .ok (some p)) :
    p ∈ db.posts ∧ p.id = post_id := by
  simp only [BlogPostRepository.get_by_id] at hg
  have hmem := scalarOneOrNone_ok_some_mem hg
  obtain ⟨h1, h2⟩ := List.mem_filter.mp hmem
  exact ⟨h1, by rwa [beq_iff_eq] at h2⟩

theorem create_post_state (data : BlogPostCreate) (author_id : Nat) (db : DB) :
    (BlogPostService.create_post data author_id db).2 = db := by
  cases hse : BlogPostRepository.slug_exists data.slug none db with
  | error e => simp [BlogPostService.create_post, hse]
  | ok b => cases b <;> simp [BlogPostService.create_post, hse, BlogPostRepository.create]

theorem update_ok_shape {p : BlogPost} {data : BlogPostUpdate} {db : DB}
    {p2 : BlogPost} {db2 : DB}
    (h : BlogPostRepository.update p data db = .ok (p2, db2)) :
    p2 = BlogPostRepository.applyPostUpdate p data ∧
    db2 = { db with posts := db.posts.map (fun q => if q.id == p.id then BlogPostRepository.applyPostUpdate p data else q) } := by
  simp only [BlogPostRepository.update] at h
  split at h
  · exact absurd h (by simp)
  · rw [Except.ok.injEq, Prod.mk.injEq] at h
    exact ⟨h.1.symm, h.2.symm⟩

theorem update_post_posts (db : DB) (post_id : Nat) (data : BlogPostUpdate)
    (author_id : Nat) :
    (BlogPostService.update_post post_id data author_id db).2.posts = db.posts ∨
    ∃ p, p ∈ db.posts ∧ p.id = post_id ∧
      (BlogPostService.update_post post_id data author_id db).2.posts =
        db.posts.map (fun q => if q.id == post_id then BlogPostRepository.applyPostUpdate p data else q) := by
  cases hg : BlogPostRepository.get_by_id post_id db with
  | error e => left; simp [BlogPostService.update_post, hg]
  | ok o =>
    cases o with
    | none => left; simp [BlogPostService.update_post, hg]
    | some p =>
      obtain ⟨hp, hpid⟩ := get_by_id_ok_some hg
      cases hauth : p.author_id != author_id with
      | true => left; simp [BlogPostService.update_post, hg, hauth]
      | false =>
        cases hsc : BlogPostService.slugCheck data p post_id db with
        | error e => left; simp [BlogPostService.update_post, hg, hauth, hsc]
        | ok b =>
          cases b with
          | true => left; simp [BlogPostService.update_post, hg, hauth, hsc]
          | false =>
            cases hup : BlogPostRepository.update p data db with
            | error e => left; simp [BlogPostService.update_post, hg, hauth, hsc, hup]
            | ok pr =>
              obtain ⟨p2, db2⟩ := pr
              obtain ⟨hp2, hdb2⟩ := update_ok_shape hup
              right
              refine ⟨p, hp, hpid, ?_⟩
              have h2 : (BlogPostService.update_post post_id data author_id db).2 = db2 := by
                simp only [BlogPostService.update_post, hg, hauth, Bool.false_eq_true,
                  if_false, hsc, hup]
                cases data.content.join <;> rfl
              rw [h2, hdb2]
              simp only [hpid]

theorem publish_post_posts (db : DB) (post_id author_id now : Nat) :
    (BlogPostService.publish_post post_id author_id now db).2.posts = db.posts ∨
    ∃ p, p ∈ db.posts ∧ p.status = "draft" ∧
      (BlogPostService.publish_post post_id author_id now db).2.posts =
        db.posts.map (fun q => if q.id == p.id then { p with status := "published", published_at := some now } else q) := by
  cases hg : BlogPostRepository.get_by_id post_id db with
  | error e => left; simp [BlogPostService.publish_post, hg]
  | ok o =>
    cases o with
    | none => left; simp [BlogPostService.publish_post, hg]
    | some p =>
      cases hauth : p.author_id != author_id with
      | true => left; simp [BlogPostService.publish_post, hg, hauth]
      | false =>
        cases hst : p.status != "draft" with
        | true => left; simp [BlogPostService.publish_post, hg, hauth, hst]
        | false =>
          right
          refine ⟨p, (get_by_id_ok_some hg).1, by simpa using hst, ?_⟩
          simp [BlogPostService.publish_post, hg, hauth, hst]

theorem delete_post_posts_subset (db : DB) (post_id author_id : Nat)
    (q : BlogPost) (hq : q ∈ (BlogPostService.delete_post post_id author_id db).2.posts) :
    q ∈ db.posts := by
  rw [delete_post_state] at hq
  exact hq

theorem runPostOp_origin (op : PostOp) (db : DB) (q : BlogPost)
    (hq : q ∈ (runPostOp op db).posts) :
    ∃ p, p ∈ db.posts ∧ p.id = q.id ∧
      (q.status = p.status ∨ (p.status = "draft" ∧ q.status = "published")) := by
  cases op with
  | create data a =>
    simp only [runPostOp] at hq
    rw [create_post_state] at hq
    exact ⟨q, hq, rfl, Or.inl rfl⟩
  | update i data a =>
    simp only [runPostOp] at hq
    rcases update_post_posts db i data a with hsame | ⟨p, hp, hpid, hmap⟩
    · rw [hsame] at hq
      exact ⟨q, hq, rfl, Or.inl rfl⟩
    · rw [hmap] at hq
      obtain ⟨q0, hq0, hq0eq⟩ := List.mem_map.mp hq
      by_cases hc : (q0.id == i) = true
      · rw [if_pos hc] at hq0eq
        subst hq0eq
        exact ⟨p, hp, rfl, Or.inl rfl⟩
      · rw [if_neg hc] at hq0eq
        subst hq0eq
        exact ⟨q0, hq0, rfl, Or.inl rfl⟩
  | publish i a n =>
    simp only [runPostOp] at hq
    rcases publish_post_posts db i a n with hsame | ⟨p, hp, hdraft, hmap⟩
    · rw [hsame] at hq
      exact ⟨q, hq, rfl, Or.inl rfl⟩
    · rw [hmap] at hq
      obtain ⟨q0, hq0, hq0eq⟩ := List.mem_map.mp hq
      by_cases hc : (q0.id == p.id) = true
      · rw [if_pos hc] at hq0eq
        subst hq0eq
        exact ⟨p, hp, rfl, Or.inr ⟨hdraft, rfl⟩⟩
      · rw [if_neg hc] at hq0eq
        subst hq0eq
        exact ⟨q0, hq0, rfl, Or.inl rfl⟩
  | delete i a =>
    simp only [runPostOp] at hq
    exact ⟨q, delete_post_posts_subset db i a q hq, rfl, Or.inl rfl⟩

/-- C4.  Blog post status state machine: starting from any store whose
posts are all `draft` or `published`, every store reachable through the
service operations (create, update, publish, delete) still satisfies the
invariant — no operation ever moves a post into `archived` or `scheduled`.
Moreover every post after any single operation descends from a stored post
with the same id whose status it either keeps or upgrades from `draft` to
`published` (the publish transition is the only status change; create
inserts nothing because it always raises, and the update schema carries no
status field). -/
theorem c4_status_state_machine :
    (∀ (db db2 : DB), postStatusInv db → ReachablePostState db db2 → postStatusInv db2) ∧
    (∀ (op : PostOp) (db : DB) (q : BlogPost), q ∈ (runPostOp op db).posts →
      ∃ p, p ∈ db.posts ∧ p.id = q.id ∧
        (q.status = p.status ∨ (p.status = "draft" ∧ q.status = "published"))) := by
  constructor
  · intro db db2 hinv hreach
    induction hreach with
    | refl => exact hinv
    | tail hseg hstep ih =>
      obtain ⟨op, rfl⟩ := hstep
      intro q hq
      obtain ⟨p, hp, hpid, hstat⟩ := runPostOp_origin op _ q hq
      rcases hstat with h | h
      · rw [h]
        exact ih p hp
      · exact Or.inr h.2
  · exact runPostOp_origin

/-- Witness for C4: publishing the draft in `dbDraft` reaches a store that
still satisfies the invariant, and the published post descends from the
stored draft. -/
theorem c4_status_state_machine_witness :
    postStatusInv (runPostOp (PostOp.publish 1 7 99) dbDraft) ∧
    (∃ p, p ∈ dbDraft.posts ∧ p.id = 1 ∧
      ("published" = p.status ∨ (p.status = "draft" ∧ "published" = "published"))) :=
  ⟨c4_status_state_machine.1 dbDraft (runPostOp (PostOp.publish 1 7 99) dbDraft)
     (by decide) (Relation.ReflTransGen.single ⟨PostOp.publish 1 7 99, rfl⟩),
   c4_status_state_machine.2 (PostOp.publish 1 7 99) dbDraft
     { draftPost with status := "published", published_at := some 99 } (by decide)⟩

/-- C10.  Frame property of blog post update: the repository applies only
supplied non-null values, so a field supplied as null or not supplied at
all keeps its previous value; consequently an update can never reset an
optional field (`category_id`, `topic_cluster_id`, `excerpt`) back to null;
and all fields outside the update schema (id, author, status, the content
columns, image references, counters, `published_at`) keep their previous
values.  At store level, `update_post` either leaves the posts unchanged or
replaces exactly the target post by its updated version. -/
theorem c10_update_null_ignored_frame :
    (∀ (p : BlogPost) (u : BlogPostUpdate),
      (BlogPostRepository.applyPostUpdate p u).id = p.id ∧
      (BlogPostRepository.applyPostUpdate p u).author_id = p.author_id ∧
      (BlogPostRepository.applyPostUpdate p u).status = p.status ∧
      (BlogPostRepository.applyPostUpdate p u).published_at = p.published_at ∧
      (BlogPostRepository.applyPostUpdate p u).content_markdown = p.content_markdown ∧
      (BlogPostRepository.applyPostUpdate p u).content_html = p.content_html ∧
      (BlogPostRepository.applyPostUpdate p u).featured_image_id = p.featured_image_id ∧
      (BlogPostRepository.applyPostUpdate p u).og_image_id = p.og_image_id ∧
      (BlogPostRepository.applyPostUpdate p u).view_count = p.view_count ∧
      (BlogPostRepository.applyPostUpdate p u).like_count = p.like_count ∧
      (BlogPostRepository.applyPostUpdate p u).comment_count = p.comment_count) ∧
    (∀ (p : BlogPost) (u : BlogPostUpdate), (u.category_id = none ∨ u.category_id = some none) →
      (BlogPostRepository.applyPostUpdate p u).category_id = p.category_id) ∧
    (∀ (p : BlogPost) (u : BlogPostUpdate), (u.topic_cluster_id = none ∨ u.topic_cluster_id = some none) →
      (BlogPostRepository.applyPostUpdate p u).topic_cluster_id = p.topic_cluster_id) ∧
    (∀ (p : BlogPost) (u : BlogPostUpdate), (u.excerpt = none ∨ u.excerpt = some none) →
      (BlogPostRepository.applyPostUpdate p u).excerpt = p.excerpt) ∧
    (∀ (p : BlogPost) (u : BlogPostUpdate), (u.meta_description = none ∨ u.meta_description = some none) →
      (BlogPostRepository.applyPostUpdate p u).meta_description = p.meta_description) ∧
    (∀ (p : BlogPost) (u : BlogPostUpdate), (u.title = none ∨ u.title = some none) →
      (BlogPostRepository.applyPostUpdate p u).title = p.title) ∧
    (∀ (p : BlogPost) (u : BlogPostUpdate), (u.slug = none ∨ u.slug = some none) →
      (BlogPostRepository.applyPostUpdate p u).slug = p.slug) ∧
    (∀ (p : BlogPost) (u : BlogPostUpdate),
      (BlogPostRepository.applyPostUpdate p u).category_id = none → p.category_id = none) ∧
    (∀ (p : BlogPost) (u : BlogPostUpdate),
      (BlogPostRepository.applyPostUpdate p u).topic_cluster_id = none → p.topic_cluster_id = none) ∧
    (∀ (p : BlogPost) (u : BlogPostUpdate),
      (BlogPostRepository.applyPostUpdate p u).excerpt = none → p.excerpt = none) ∧
    (∀ (db : DB) (post_id : Nat) (u : BlogPostUpdate) (author_id : Nat),
      (BlogPostService.update_post post_id u author_id db).2.posts = db.posts ∨
      ∃ p, p ∈ db.posts ∧ p.id = post_id ∧
        (BlogPostService.update_post post_id u author_id db).2.posts =
          db.posts.map (fun q => if q.id == post_id then BlogPostRepository.applyPostUpdate p u else q)) := by
  refine ⟨fun p u => ⟨rfl, rfl, rfl, rfl, rfl, rfl, rfl, rfl, rfl, rfl, rfl⟩,
    ?_, ?_, ?_, ?_, ?_, ?_, ?_, ?_, ?_, update_post_posts⟩
  · intro p u h
    rcases h with h | h <;> simp [BlogPostRepository.applyPostUpdate, h]
  · intro p u h
    rcases h with h | h <;> simp [BlogPostRepository.applyPostUpdate, h]
  · intro p u h
    rcases h with h | h <;> simp [BlogPostRepository.applyPostUpdate, h]
  · intro p u h
    rcases h with h | h <;> simp [BlogPostRepository.applyPostUpdate, h]
  · intro p u h
    rcases h with h | h <;> simp [BlogPostRepository.applyPostUpdate, h]
  · intro p u h
    rcases h with h | h <;> simp [BlogPostRepository.applyPostUpdate, h]
  · intro p u h
    rcases hu : u.category_id with _ | v
    · simpa [BlogPostRepository.applyPostUpdate, hu] using h
    · cases v with
      | none => simpa [BlogPostRepository.applyPostUpdate, hu] using h
      | some x => simp [BlogPostRepository.applyPostUpdate, hu] at h
  · intro p u h
    rcases hu : u.topic_cluster_id with _ | v
    · simpa [BlogPostRepository.applyPostUpdate, hu] using h
    · cases v with
      | none => simpa [BlogPostRepository.applyPostUpdate, hu] using h
      | some x => simp [BlogPostRepository.applyPostUpdate, hu] at h
  · intro p u h
    rcases hu : u.excerpt with _ | v
    · simpa [BlogPostRepository.applyPostUpdate, hu] using h
    · cases v with
      | none => simpa [BlogPostRepository.applyPostUpdate, hu] using h
      | some x => simp [BlogPostRepository.applyPostUpdate, hu] at h

/-- Witness for C10: applying the all-nulls update to the stored draft
changes nothing, and the store-level disjunct holds on `dbDraft`. -/
theorem c10_update_null_ignored_frame_witness :
    (BlogPostRepository.applyPostUpdate draftPost allNullUpdate).status = draftPost.status ∧
    (BlogPostRepository.applyPostUpdate draftPost allNullUpdate).category_id = draftPost.category_id ∧
    (BlogPostRepository.applyPostUpdate draftPost allNullUpdate).topic_cluster_id = draftPost.topic_cluster_id ∧
    (BlogPostRepository.applyPostUpdate draftPost allNullUpdate).excerpt = draftPost.excerpt ∧
    (BlogPostRepository.applyPostUpdate draftPost allNullUpdate).meta_description = draftPost.meta_description ∧
    (BlogPostRepository.applyPostUpdate draftPost allNullUpdate).title = draftPost.title ∧
    (BlogPostRepository.applyPostUpdate draftPost allNullUpdate).slug = draftPost.slug ∧
    draftPost.category_id = none ∧ draftPost.topic_cluster_id = none ∧
    draftPost.excerpt = none ∧
    ((BlogPostService.update_post 1 allNullUpdate 7 dbDraft).2.posts = dbDraft.posts ∨
      ∃ p, p ∈ dbDraft.posts ∧ p.id = 1 ∧
        (BlogPostService.update_post 1 allNullUpdate 7 dbDraft).2.posts =
          dbDraft.posts.map (fun q => if q.id == 1 then BlogPostRepository.applyPostUpdate p allNullUpdate else q)) :=
  ⟨(c10_update_null_ignored_frame.1 draftPost allNullUpdate).2.2.1,
   c10_update_null_ignored_frame.2.1 draftPost allNullUpdate (Or.inr rfl),
   c10_update_null_ignored_frame.2.2.1 draftPost allNullUpdate (Or.inr rfl),
   c10_update_null_ignored_frame.2.2.2.1 draftPost allNullUpdate (Or.inr rfl),
   c10_update_null_ignored_frame.2.2.2.2.1 draftPost allNullUpdate (Or.inr rfl),
   c10_update_null_ignored_frame.2.2.2.2.2.1 draftPost allNullUpdate (Or.inr rfl),
   c10_update_null_ignored_frame.2.2.2.2.2.2.1 draftPost allNullUpdate (Or.inr rfl),
   c10_update_null_ignored_frame.2.2.2.2.2.2.2.1 draftPost allNullUpdate (by decide),
   c10_update_null_ignored_frame.2.2.2.2.2.2.2.2.1 draftPost allNullUpdate (by decide),
   c10_update_null_ignored_frame.2.2.2.2.2.2.2.2.2.1 draftPost allNullUpdate (by decide),
   c10_update_null_ignored_frame.2.2.2.2.2.2.2.2.2.2 dbDraft 1 allNullUpdate 7⟩

end DataFlow
